import Mathlib

/-!
Shallow embedding of `masto_admin_metrics` (src/main.py).

Dates are modelled as integers (days since an epoch); the Python code only
compares dates for equality/order and subtracts fixed day counts, so this is
faithful. Gauge values are integers. Python exceptions are modelled by an
explicit error type: `AssertionError` (from `assert`), `IndexError` (list
index out of range), `ValueError` (`min`/`max` of an empty sequence),
`KeyError` (dict lookup miss), and the two caught Mastodon exception classes.
Gauge writes become explicit state passing; every update returns the state
after the call together with the first uncaught error, since a raised Python
exception aborts the remaining statements but does not undo earlier gauge
writes.
-/

namespace MastoAdminMetrics

/-- Errors a poll-cycle operation can raise, mirroring the Python exceptions. -/
inductive Err where
  | assertionError (msg : String)
  | indexError
  | valueError
  | keyError
  | mastodonServerError
  | mastodonNetworkError
  deriving DecidableEq, Repr

/-- A single day-bucketed data point as returned by `admin_measures`:
`{date, value}` with the date already truncated to a UTC calendar day. -/
structure DataPoint where
  date : Int
  value : Int
  deriving DecidableEq, Repr

/-- One result object of an `admin_measures` response: `{key, total, data}`. -/
structure MResult where
  key : String
  total : Int
  data : List DataPoint
  deriving DecidableEq, Repr

/-- State of one `CounterMeasure`: the `today` and `yesterday` gauges. -/
structure CounterState where
  today : Int
  yesterday : Int
  deriving DecidableEq, Repr

/-- The scanning loop of `CounterMeasure.update_with_data`: walks the series,
recording the last value seen for `today` and the last value seen (on the
`elif` branch) for `yesterday`. -/
def scanData (tod yest : Int) : List DataPoint → Option Int × Option Int → Option Int × Option Int
  | [], acc => acc
  | day :: rest, acc =>
      scanData tod yest rest
        (if day.date = tod then (some day.value, acc.2)
         else if day.date = yest then (acc.1, some day.value)
         else acc)

/-- `CounterMeasure.update_with_data` (src/main.py:41-58): scan the series for
today's and yesterday's points, assert both were found (today first), then set
both gauges. The returned state is the computed new gauge pair on success. -/
def CounterMeasure.update_with_data (tod : Int) (data : List DataPoint) :
    Except Err CounterState :=
  match scanData tod (tod - 1) data (none, none) with
  | (none, _) => .error (.assertionError "no data from today")
  | (some _, none) => .error (.assertionError "no data from yesterday")
  | (some t, some y) => .ok ⟨t, y⟩

/-- State transformer view of `update_with_data`: on an exception the gauges
keep their previous values. -/
def applyCounterUpdate (tod : Int) (data : List DataPoint) (s : CounterState) :
    CounterState × Option Err :=
  match CounterMeasure.update_with_data tod data with
  | .ok ns => (ns, none)
  | .error e => (s, some e)

/-- Python `min(item["date"].date() for item in data)`: `none` models the
`ValueError` raised on an empty sequence. -/
def minDate : List DataPoint → Option Int
  | [] => none
  | p :: ps => some (ps.foldl (fun m q => min m q.date) p.date)

/-- Python `max(item["date"].date() for item in data)`. -/
def maxDate : List DataPoint → Option Int
  | [] => none
  | p :: ps => some (ps.foldl (fun m q => max m q.date) p.date)

/-- The free function `verify_range` (src/main.py:61-65): compares the earliest
and latest dates of the series with the requested bounds; evaluating `min` on
an empty series raises `ValueError`. -/
def verify_range (data : List DataPoint) (begin_date end_date : Int) :
    Except Err Bool :=
  match minDate data, maxDate data with
  | some earliest, some latest =>
      .ok (decide (earliest = begin_date) && decide (latest = end_date))
  | _, _ => .error .valueError

/-- `UniqueMeasure.update_day` (src/main.py:95-112) applied to the response of
its single remote query: take `results[0]`, assert its data has exactly one
point whose date is the requested day, and return that point's value for the
gauge write. -/
def UniqueMeasure.update_day (d : Int) (results : List MResult) : Except Err Int :=
  match results with
  | [] => .error .indexError
  | result :: _ =>
      match result.data with
      | [item] =>
          if item.date = d then .ok item.value
          else .error (.assertionError "")
      | _ => .error (.assertionError "measures returned data for more than 1 day")

/-- `UniqueMeasure.update_range` (src/main.py:114-131) applied to the response
of its remote query: take `results[0]`, assert `verify_range` over its data,
and return the aggregate `total` for the gauge write. -/
def UniqueMeasure.update_range (start_date end_date : Int) (results : List MResult) :
    Except Err Int :=
  match results with
  | [] => .error .indexError
  | result :: _ =>
      match verify_range result.data start_date end_date with
      | .error e => .error e
      | .ok true => .ok result.total
      | .ok false => .error (.assertionError "range exceeded")

/-- State transformer view of a day update targeting one gauge slot. -/
def applyDay (d : Int) (results : List MResult) (g : Int) : Int × Option Err :=
  match UniqueMeasure.update_day d results with
  | .ok v => (v, none)
  | .error e => (g, some e)

/-- State transformer view of a range update targeting one gauge slot. -/
def applyRange (start_date end_date : Int) (results : List MResult) (g : Int) :
    Int × Option Err :=
  match UniqueMeasure.update_range start_date end_date results with
  | .ok v => (v, none)
  | .error e => (g, some e)

/-- State of one `UniqueMeasure`: four gauges. -/
structure UniqueState where
  today : Int
  yesterday : Int
  last_7d : Int
  last_30d : Int
  deriving DecidableEq, Repr

/-- The four remote responses consumed by one `UniqueMeasure.update` call, in
the order the queries are issued. -/
structure UniqueResponses where
  rToday : Except Err (List MResult)
  rYesterday : Except Err (List MResult)
  r7d : Except Err (List MResult)
  r30d : Except Err (List MResult)
  deriving Repr

/-- Sequencing of a remote call with the sub-update consuming its response: a
transport/server error from the call propagates like any other exception. -/
def bindFetch (r : Except Err (List MResult)) (k : List MResult → Except Err Int) :
    Except Err Int :=
  match r with
  | .error e => .error e
  | .ok results => k results

/-- `UniqueMeasure.update` (src/main.py:86-93): four sub-updates run in
sequence (today, yesterday, last 7 days, last 30 days). The first exception
aborts the remaining sub-updates; gauge writes already performed stay. -/
def UniqueMeasure.update (tod : Int) (rs : UniqueResponses) (s : UniqueState) :
    UniqueState × Option Err :=
  match bindFetch rs.rToday (UniqueMeasure.update_day tod) with
  | .error e => (s, some e)
  | .ok v1 =>
      let s1 : UniqueState := { s with today := v1 }
      match bindFetch rs.rYesterday (UniqueMeasure.update_day (tod - 1)) with
      | .error e => (s1, some e)
      | .ok v2 =>
          let s2 : UniqueState := { s1 with yesterday := v2 }
          match bindFetch rs.r7d (UniqueMeasure.update_range (tod - 1 - 7) (tod - 1)) with
          | .error e => (s2, some e)
          | .ok v3 =>
              let s3 : UniqueState := { s2 with last_7d := v3 }
              match bindFetch rs.r30d (UniqueMeasure.update_range (tod - 1 - 30) (tod - 1)) with
              | .error e => (s3, some e)
              | .ok v4 => ({ s3 with last_30d := v4 }, none)

/-- The counter-kind measure names of `MEASURE_NAMES` (src/main.py:134-147). -/
def counterNames : List String :=
  ["interactions", "new_users", "opened_reports", "resolved_reports"]

/-- Write-back of one counter measure's new gauge pair. -/
def setCounter (cs : List (String × CounterState)) (name : String) (v : CounterState) :
    List (String × CounterState) :=
  cs.map (fun p => if p.1 = name then (p.1, v) else p)

/-- Python dict insertion: an existing key keeps its position and takes the new
value, a new key is appended. -/
def dictInsert (d : List (String × List DataPoint)) (k : String) (v : List DataPoint) :
    List (String × List DataPoint) :=
  if d.any (fun p => p.1 = k) then d.map (fun p => if p.1 = k then (k, v) else p)
  else d ++ [(k, v)]

/-- The `counts` dict comprehension of `update_counters` (src/main.py:164-172):
`{data["key"]: data["data"] for data in results}`. -/
def buildCounts (results : List MResult) : List (String × List DataPoint) :=
  results.foldl (fun d r => dictInsert d r.key r.data) []

/-- The dispatch loop of `update_counters` (src/main.py:174-175): for each
returned key, look the measure up in `MEASURES["counter"]` (a miss raises
`KeyError`) and run its combined update; the first exception aborts the rest. -/
def updateCountersGo (tod : Int) :
    List (String × List DataPoint) → List (String × CounterState) →
      List (String × CounterState) × Option Err
  | [], cs => (cs, none)
  | (name, data) :: rest, cs =>
      if counterNames.contains name then
        match CounterMeasure.update_with_data tod data with
        | .error e => (cs, some e)
        | .ok ns => updateCountersGo tod rest (setCounter cs name ns)
      else (cs, some .keyError)

/-- `update_counters` (src/main.py:162-175) applied to the outcome of its one
combined remote query. -/
def update_counters (tod : Int) (r : Except Err (List MResult))
    (cs : List (String × CounterState)) : List (String × CounterState) × Option Err :=
  match r with
  | .error e => (cs, some e)
  | .ok results => updateCountersGo tod (buildCounts results) cs

/-- The remote responses consumed by one full `update_all` cycle: the combined
counters query plus the four queries of the single unique measure
(`active_users`). -/
structure CycleResponses where
  rCounters : Except Err (List MResult)
  uniq : UniqueResponses
  deriving Repr

/-- State of every published measure gauge. -/
structure FullState where
  counters : List (String × CounterState)
  uniques : UniqueState
  deriving DecidableEq, Repr

/-- `update_all` (src/main.py:155-159): counters first, then each unique
measure; an exception anywhere aborts the remaining updates of the cycle. -/
def update_all (tod : Int) (rs : CycleResponses) (s : FullState) :
    FullState × Option Err :=
  match update_counters tod rs.rCounters s.counters with
  | (cs, some e) => ({ s with counters := cs }, some e)
  | (cs, none) =>
      match UniqueMeasure.update tod rs.uniq s.uniques with
      | (us, oe) => ({ counters := cs, uniques := us }, oe)

/-- Exception classes caught by the serving loop's `try`/`except`
(src/main.py:226-231). -/
def isRemoteErr : Err → Bool
  | .mastodonServerError => true
  | .mastodonNetworkError => true
  | _ => false

/-- Outcome of one serving-loop iteration: normal continuation (with the gate
freshly set), or an uncaught exception terminating the loop. -/
inductive CycleOutcome where
  | continues
  | crashed (e : Err)
  deriving DecidableEq, Repr

/-- Serving-loop state: the measure gauges plus the `masto_admin_metrics_up`
freshness gauge. -/
structure ServeState where
  st : FullState
  up : Int
  deriving DecidableEq, Repr

/-- One iteration of the serving loop (src/main.py:222-233): run `update_all`;
a caught Mastodon error sets `up` to 0, success sets it to 1, and any other
exception leaves `up` unchanged and propagates, ending the loop. -/
def pollCycle (tod : Int) (rs : CycleResponses) (s : ServeState) :
    ServeState × CycleOutcome :=
  match update_all tod rs s.st with
  | (st1, none) => (⟨st1, 1⟩, .continues)
  | (st1, some e) =>
      if isRemoteErr e then (⟨st1, 0⟩, .continues)
      else (⟨st1, s.up⟩, .crashed e)

/-- Environment lookup: first binding of the key wins. -/
def lookupEnv (env : List (String × String)) (k : String) : Option String :=
  (env.find? (fun p => p.1 == k)).map (fun p => p.2)

/-- The credential block of `get_mastodon` (src/main.py:179-182): four
mandatory `os.environ[...]` reads; a missing key raises `KeyError`. -/
structure MastodonConfig where
  base_url : String
  client_key : String
  client_secret : String
  access_token : String
  deriving DecidableEq, Repr

/-- Reading the mandatory configuration keys, in source order. -/
def get_mastodon_config (env : List (String × String)) : Except Err MastodonConfig :=
  match lookupEnv env "MASTODON_BASE_URL" with
  | none => .error .keyError
  | some b =>
      match lookupEnv env "MASTODON_CLIENT_KEY" with
      | none => .error .keyError
      | some ck =>
          match lookupEnv env "MASTODON_CLIENT_SECRET" with
          | none => .error .keyError
          | some cs =>
              match lookupEnv env "MASTODON_ACCESS_TOKEN" with
              | none => .error .keyError
              | some at_ => .ok ⟨b, ck, cs, at_⟩

/-- Python `os.environ.get("PORT", 9876)` (src/main.py:206): the environment
string when present, the integer default otherwise. -/
def config_PORT (env : List (String × String)) : String ⊕ Int :=
  match lookupEnv env "PORT" with
  | some v => .inl v
  | none => .inr 9876

/-- Python `os.environ.get("UPDATE_SECS", 30)` (src/main.py:207), before the
`float` conversion: the environment string when present, 30 otherwise. -/
def config_UPDATE_SECS (env : List (String × String)) : String ⊕ Int :=
  match lookupEnv env "UPDATE_SECS" with
  | some v => .inl v
  | none => .inr 30

/-- Every environment key the program reads (src/main.py:179-182,206-207). -/
def recognizedEnvKeys : List String :=
  ["MASTODON_BASE_URL", "MASTODON_CLIENT_KEY", "MASTODON_CLIENT_SECRET",
   "MASTODON_ACCESS_TOKEN", "PORT", "UPDATE_SECS"]

/-! Lemmas about the scanning loop of `CounterMeasure.update_with_data`. -/

lemma scan_fst_eq_none (tod yest : Int) (data : List DataPoint)
    (acc : Option Int × Option Int) :
    (scanData tod yest data acc).1 = none ↔
      acc.1 = none ∧ ∀ p ∈ data, p.date ≠ tod := by
  induction data generalizing acc with
  | nil => simp [scanData]
  | cons day rest ih =>
      simp only [scanData]
      by_cases h1 : day.date = tod
      · rw [if_pos h1, ih]
        simp [h1]
      · rw [if_neg h1]
        by_cases h2 : day.date = yest
        · rw [if_pos h2, ih]
          simp [h1]
        · rw [if_neg h2, ih]
          simp [h1]

lemma scan_snd_eq_none (tod yest : Int) (data : List DataPoint)
    (acc : Option Int × Option Int) :
    (scanData tod yest data acc).2 = none ↔
      acc.2 = none ∧ ∀ p ∈ data, ¬(p.date ≠ tod ∧ p.date = yest) := by
  induction data generalizing acc with
  | nil => simp [scanData]
  | cons day rest ih =>
      simp only [scanData]
      by_cases h1 : day.date = tod
      · rw [if_pos h1, ih]
        simp [h1]
      · rw [if_neg h1]
        by_cases h2 : day.date = yest
        · rw [if_pos h2, ih]
          constructor
          · intro h
            exact absurd h.1 (by simp)
          · rintro ⟨-, hall⟩
            exact absurd ⟨h1, h2⟩ (hall day (List.mem_cons_self day rest))
        · rw [if_neg h2, ih]
          simp [h2]

lemma scan_fst_eq_some (tod yest vt : Int) (data : List DataPoint)
    (acc : Option Int × Option Int)
    (hall : ∀ p ∈ data, p.date = tod → p.value = vt)
    (hbase : acc.1 = some vt ∨ ∃ p ∈ data, p.date = tod) :
    (scanData tod yest data acc).1 = some vt := by
  induction data generalizing acc with
  | nil =>
      rcases hbase with hb | ⟨p, hp, _⟩
      · simpa [scanData] using hb
      · simp at hp
  | cons day rest ih =>
      simp only [scanData]
      have hrest : ∀ p ∈ rest, p.date = tod → p.value = vt :=
        fun p hp hd => hall p (List.mem_cons_of_mem day hp) hd
      by_cases h1 : day.date = tod
      · rw [if_pos h1]
        refine ih _ hrest (Or.inl ?_)
        have hv : day.value = vt := hall day (List.mem_cons_self day rest) h1
        simp [hv]
      · rw [if_neg h1]
        have hbase' : acc.1 = some vt ∨ ∃ p ∈ rest, p.date = tod := by
          rcases hbase with hb | ⟨p, hp, hd⟩
          · exact Or.inl hb
          · rcases List.mem_cons.mp hp with rfl | hp'
            · exact absurd hd h1
            · exact Or.inr ⟨p, hp', hd⟩
        by_cases h2 : day.date = yest
        · rw [if_pos h2]
          exact ih _ hrest hbase'
        · rw [if_neg h2]
          exact ih _ hrest hbase'

lemma scan_snd_eq_some (tod yest vy : Int) (hne : yest ≠ tod) (data : List DataPoint)
    (acc : Option Int × Option Int)
    (hall : ∀ p ∈ data, p.date = yest → p.value = vy)
    (hbase : acc.2 = some vy ∨ ∃ p ∈ data, p.date = yest) :
    (scanData tod yest data acc).2 = some vy := by
  induction data generalizing acc with
  | nil =>
      rcases hbase with hb | ⟨p, hp, _⟩
      · simpa [scanData] using hb
      · simp at hp
  | cons day rest ih =>
      simp only [scanData]
      have hrest : ∀ p ∈ rest, p.date = yest → p.value = vy :=
        fun p hp hd => hall p (List.mem_cons_of_mem day hp) hd
      by_cases h1 : day.date = tod
      · rw [if_pos h1]
        have hbase' : acc.2 = some vy ∨ ∃ p ∈ rest, p.date = yest := by
          rcases hbase with hb | ⟨p, hp, hd⟩
          · exact Or.inl hb
          · rcases List.mem_cons.mp hp with rfl | hp'
            · exact absurd (hd.symm.trans h1) hne
            · exact Or.inr ⟨p, hp', hd⟩
        exact ih _ hrest hbase'
      · rw [if_neg h1]
        by_cases h2 : day.date = yest
        · rw [if_pos h2]
          refine ih _ hrest (Or.inl ?_)
          have hv : day.value = vy := hall day (List.mem_cons_self day rest) h2
          simp [hv]
        · rw [if_neg h2]
          have hbase' : acc.2 = some vy ∨ ∃ p ∈ rest, p.date = yest := by
            rcases hbase with hb | ⟨p, hp, hd⟩
            · exact Or.inl hb
            · rcases List.mem_cons.mp hp with rfl | hp'
              · exact absurd hd h2
              · exact Or.inr ⟨p, hp', hd⟩
          exact ih _ hrest hbase'

/-- C2: `CounterMeasure.update_with_data` is all-or-nothing: if the series
lacks a point dated today or lacks one dated yesterday, an error is signalled
and neither gauge is overwritten; if both dates are found, both gauges are
replaced together and no error occurs. -/
theorem counterUpdate_all_or_nothing (tod : Int) (data : List DataPoint) (s : CounterState) :
    (((¬ ∃ p ∈ data, p.date = tod) ∨ (¬ ∃ p ∈ data, p.date = tod - 1)) →
      (applyCounterUpdate tod data s).1 = s ∧ (applyCounterUpdate tod data s).2 ≠ none)
    ∧ ((∃ p ∈ data, p.date = tod) → (∃ p ∈ data, p.date = tod - 1) →
      ∃ t y, scanData tod (tod - 1) data (none, none) = (some t, some y) ∧
        applyCounterUpdate tod data s = (⟨t, y⟩, none)) := by
  constructor
  · intro hmiss
    rcases hmiss with hm | hm
    · have h1 : (scanData tod (tod - 1) data (none, none)).1 = none := by
        rw [scan_fst_eq_none]
        exact ⟨rfl, fun p hp hd => hm ⟨p, hp, hd⟩⟩
      unfold applyCounterUpdate CounterMeasure.update_with_data
      rcases hsc : scanData tod (tod - 1) data (none, none) with ⟨f, sn⟩
      have hf : f = none := by rw [hsc] at h1; exact h1
      subst hf
      simp
    · have h2 : (scanData tod (tod - 1) data (none, none)).2 = none := by
        rw [scan_snd_eq_none]
        exact ⟨rfl, fun p hp hd => hm ⟨p, hp, hd.2⟩⟩
      unfold applyCounterUpdate CounterMeasure.update_with_data
      rcases hsc : scanData tod (tod - 1) data (none, none) with ⟨f, sn⟩
      have hs : sn = none := by rw [hsc] at h2; exact h2
      subst hs
      rcases f with _ | t <;> simp
  · intro hT hY
    have h1 : (scanData tod (tod - 1) data (none, none)).1 ≠ none := by
      intro h0
      rw [scan_fst_eq_none] at h0
      rcases hT with ⟨p, hp, hd⟩
      exact h0.2 p hp hd
    have h2 : (scanData tod (tod - 1) data (none, none)).2 ≠ none := by
      intro h0
      rw [scan_snd_eq_none] at h0
      rcases hY with ⟨p, hp, hd⟩
      exact h0.2 p hp ⟨by omega, hd⟩
    rcases hsc : scanData tod (tod - 1) data (none, none) with ⟨f, sn⟩
    rw [hsc] at h1 h2
    rcases f with _ | t
    · exact absurd rfl h1
    rcases sn with _ | y
    · exact absurd rfl h2
    refine ⟨t, y, rfl, ?_⟩
    unfold applyCounterUpdate CounterMeasure.update_with_data
    rw [hsc]

/-- Witness for `counterUpdate_all_or_nothing` at concrete inputs: a series
with both days present commits both values, a series missing yesterday leaves
the state alone and errors. -/
theorem counterUpdate_all_or_nothing_witness :
    (∃ t y, scanData 5 (5 - 1) [⟨5, 10⟩, ⟨4, 20⟩] (none, none) = (some t, some y) ∧
      applyCounterUpdate 5 [⟨5, 10⟩, ⟨4, 20⟩] ⟨0, 0⟩ = (⟨t, y⟩, none))
    ∧ ((applyCounterUpdate 5 [⟨5, 10⟩] ⟨1, 2⟩).1 = (⟨1, 2⟩ : CounterState)
        ∧ (applyCounterUpdate 5 [⟨5, 10⟩] ⟨1, 2⟩).2 ≠ none) := by
  constructor
  · exact (counterUpdate_all_or_nothing 5 [⟨5, 10⟩, ⟨4, 20⟩] ⟨0, 0⟩).2
      ⟨⟨5, 10⟩, by simp, rfl⟩ ⟨⟨4, 20⟩, by simp, by decide⟩
  · refine (counterUpdate_all_or_nothing 5 [⟨5, 10⟩] ⟨1, 2⟩).1 (Or.inr ?_)
    rintro ⟨p, hp, hd⟩
    simp only [List.mem_singleton] at hp
    subst hp
    revert hd
    decide

/-- C6: a series containing a point dated today (with value `vt`) and a point
dated yesterday (with value `vy`) makes `CounterMeasure.update_with_data`
succeed and store exactly those two values, whatever other dates appear. -/
theorem counterUpdate_extracts (tod vt vy : Int) (data : List DataPoint) (s : CounterState)
    (hexT : ∃ p ∈ data, p.date = tod)
    (hexY : ∃ p ∈ data, p.date = tod - 1)
    (hallT : ∀ p ∈ data, p.date = tod → p.value = vt)
    (hallY : ∀ p ∈ data, p.date = tod - 1 → p.value = vy) :
    applyCounterUpdate tod data s = (⟨vt, vy⟩, none) := by
  have h1 : (scanData tod (tod - 1) data (none, none)).1 = some vt :=
    scan_fst_eq_some tod (tod - 1) vt data (none, none) hallT (Or.inr hexT)
  have h2 : (scanData tod (tod - 1) data (none, none)).2 = some vy :=
    scan_snd_eq_some tod (tod - 1) vy (by omega) data (none, none) hallY (Or.inr hexY)
  unfold applyCounterUpdate CounterMeasure.update_with_data
  rcases hsc : scanData tod (tod - 1) data (none, none) with ⟨f, sn⟩
  rw [hsc] at h1 h2
  have hf : f = some vt := h1
  have hs : sn = some vy := h2
  subst hf
  subst hs
  rfl

/-- Witness for `counterUpdate_extracts`: today's and yesterday's points sit
between unrelated dates and are picked out. -/
theorem counterUpdate_extracts_witness :
    applyCounterUpdate 10 [⟨3, 99⟩, ⟨9, 21⟩, ⟨10, 42⟩, ⟨7, 5⟩] ⟨0, 0⟩ =
      (⟨42, 21⟩, none) := by
  refine counterUpdate_extracts 10 42 21 _ _ ⟨⟨10, 42⟩, by simp, rfl⟩
    ⟨⟨9, 21⟩, by simp, by decide⟩ ?_ ?_ <;>
  · rintro p hp hd
    simp only [List.mem_cons, List.not_mem_nil, or_false] at hp
    rcases hp with rfl | rfl | rfl | rfl <;> revert hd <;> decide

/-- C8: applying the same update twice with the same response and the same
calendar date leaves exactly the state of a single application, for the
counter update, the day update and the range update alike. -/
theorem updates_idempotent (tod d b e : Int) (data : List DataPoint)
    (results : List MResult) (s : CounterState) (g : Int) :
    (applyCounterUpdate tod data (applyCounterUpdate tod data s).1).1
        = (applyCounterUpdate tod data s).1
    ∧ (applyDay d results (applyDay d results g).1).1 = (applyDay d results g).1
    ∧ (applyRange b e results (applyRange b e results g).1).1
        = (applyRange b e results g).1 := by
  refine ⟨?_, ?_, ?_⟩
  · cases h : CounterMeasure.update_with_data tod data <;>
      simp [applyCounterUpdate, h]
  · cases h : UniqueMeasure.update_day d results <;>
      simp [applyDay, h]
  · cases h : UniqueMeasure.update_range b e results <;>
      simp [applyRange, h]

/-- C3: `UniqueMeasure.update_range` stores the response's aggregate `total`
into the gauge exactly when the earliest returned date equals the requested
start and the latest equals the requested end; in every other case (subset
coverage, wrong bounds, or an empty series) the gauge is unchanged and an
error is signalled. -/
theorem rangeUpdate_correct (b e : Int) (r : MResult) (rest : List MResult) (g : Int) :
    ((minDate r.data = some b ∧ maxDate r.data = some e) →
      applyRange b e (r :: rest) g = (r.total, none))
    ∧ (¬ (minDate r.data = some b ∧ maxDate r.data = some e) →
      (applyRange b e (r :: rest) g).1 = g ∧ (applyRange b e (r :: rest) g).2 ≠ none) := by
  constructor
  · rintro ⟨hmin, hmax⟩
    simp [applyRange, UniqueMeasure.update_range, verify_range, hmin, hmax]
  · intro hne
    rcases hmin : minDate r.data with _ | earliest
    · simp [applyRange, UniqueMeasure.update_range, verify_range, hmin]
    · rcases hmax : maxDate r.data with _ | latest
      · simp [applyRange, UniqueMeasure.update_range, verify_range, hmin, hmax]
      · by_cases hb : earliest = b
        · by_cases he : latest = e
          · exact absurd ⟨by rw [hmin, hb], by rw [hmax, he]⟩ hne
          · simp [applyRange, UniqueMeasure.update_range, verify_range, hmin, hmax, hb, he]
        · simp [applyRange, UniqueMeasure.update_range, verify_range, hmin, hmax, hb]

/-- Witness for `rangeUpdate_correct`: exact coverage stores the total, a
series starting two days late keeps the old gauge and errors. -/
theorem rangeUpdate_correct_witness :
    applyRange 1 3 [⟨"k", 42, [⟨1, 5⟩, ⟨2, 0⟩, ⟨3, 6⟩]⟩] 7 = (42, none)
    ∧ ((applyRange 1 3 [⟨"k", 42, [⟨2, 0⟩, ⟨3, 6⟩]⟩] 7).1 = 7
        ∧ (applyRange 1 3 [⟨"k", 42, [⟨2, 0⟩, ⟨3, 6⟩]⟩] 7).2 ≠ none) := by
  constructor
  · exact (rangeUpdate_correct 1 3 ⟨"k", 42, [⟨1, 5⟩, ⟨2, 0⟩, ⟨3, 6⟩]⟩ [] 7).1
      (by constructor <;> decide)
  · exact (rangeUpdate_correct 1 3 ⟨"k", 42, [⟨2, 0⟩, ⟨3, 6⟩]⟩ [] 7).2 (by decide)

/-- C4: `UniqueMeasure.update_day` stores the single returned point's value
when the response's series is exactly one point dated the requested day;
zero points, two or more points, or a date mismatch leave the gauge unchanged
and signal an error. -/
theorem dayUpdate_correct (d : Int) (r : MResult) (rest : List MResult) (g : Int) :
    (∀ item, r.data = [item] → item.date = d →
      applyDay d (r :: rest) g = (item.value, none))
    ∧ (∀ item, r.data = [item] → item.date ≠ d →
      (applyDay d (r :: rest) g).1 = g ∧ (applyDay d (r :: rest) g).2 ≠ none)
    ∧ (r.data.length ≠ 1 →
      (applyDay d (r :: rest) g).1 = g ∧ (applyDay d (r :: rest) g).2 ≠ none) := by
  refine ⟨?_, ?_, ?_⟩
  · intro item hdata hd
    simp [applyDay, UniqueMeasure.update_day, hdata, hd]
  · intro item hdata hd
    simp [applyDay, UniqueMeasure.update_day, hdata, hd]
  · intro hlen
    rcases hdata : r.data with _ | ⟨item, _ | ⟨item2, tail⟩⟩
    · simp [applyDay, UniqueMeasure.update_day, hdata]
    · rw [hdata] at hlen
      simp at hlen
    · simp [applyDay, UniqueMeasure.update_day, hdata]

/-- Witness for `dayUpdate_correct`: one matching point is stored; a
mismatched date and a two-point series each keep the old gauge and error. -/
theorem dayUpdate_correct_witness :
    applyDay 9 [⟨"k", 0, [⟨9, 33⟩]⟩] 4 = (33, none)
    ∧ ((applyDay 9 [⟨"k", 0, [⟨8, 33⟩]⟩] 4).1 = 4
        ∧ (applyDay 9 [⟨"k", 0, [⟨8, 33⟩]⟩] 4).2 ≠ none)
    ∧ ((applyDay 9 [⟨"k", 0, [⟨8, 1⟩, ⟨9, 2⟩]⟩] 4).1 = 4
        ∧ (applyDay 9 [⟨"k", 0, [⟨8, 1⟩, ⟨9, 2⟩]⟩] 4).2 ≠ none) := by
  refine ⟨?_, ?_, ?_⟩
  · exact (dayUpdate_correct 9 ⟨"k", 0, [⟨9, 33⟩]⟩ [] 4).1 ⟨9, 33⟩ rfl rfl
  · exact (dayUpdate_correct 9 ⟨"k", 0, [⟨8, 33⟩]⟩ [] 4).2.1 ⟨8, 33⟩ rfl (by decide)
  · exact (dayUpdate_correct 9 ⟨"k", 0, [⟨8, 1⟩, ⟨9, 2⟩]⟩ [] 4).2.2 (by decide)

/-- C10: an empty result list given to the day update raises `IndexError`
(`results[0]`), and a result whose series is empty given to the range update
raises `ValueError` (`min` of an empty sequence); both happen before any gauge
write, leave the gauge unchanged, and are distinct from the `AssertionError`
raised by the documented shape and coverage checks. -/
theorem emptyResponse_safety (d b e g t : Int) (k : String) :
    applyDay d [] g = (g, some .indexError)
    ∧ applyRange b e [⟨k, t, []⟩] g = (g, some .valueError)
    ∧ (∀ m, Err.indexError ≠ Err.assertionError m ∧ Err.valueError ≠ Err.assertionError m) := by
  refine ⟨rfl, rfl, ?_⟩
  intro m
  exact ⟨fun h => Err.noConfusion h, fun h => Err.noConfusion h⟩

/-- C1 (counterexample to the claim as stated): with today's query returning an
empty series while the yesterday, 7-day and 30-day responses are each valid
(shown by the last three conjuncts), `UniqueMeasure.update` leaves all four
gauges untouched: the day-update failure blocks the three remaining
sub-updates instead of leaving them independent. -/
theorem uniqueUpdate_not_independent :
    UniqueMeasure.update 100
        ⟨.ok [⟨"active_users", 0, []⟩],
         .ok [⟨"active_users", 0, [⟨99, 5⟩]⟩],
         .ok [⟨"active_users", 77, [⟨92, 1⟩, ⟨99, 1⟩]⟩],
         .ok [⟨"active_users", 55, [⟨69, 1⟩, ⟨99, 1⟩]⟩]⟩ ⟨0, 0, 0, 0⟩
      = (⟨0, 0, 0, 0⟩, some (.assertionError "measures returned data for more than 1 day"))
    ∧ UniqueMeasure.update_day 99 [⟨"active_users", 0, [⟨99, 5⟩]⟩] = .ok 5
    ∧ UniqueMeasure.update_range 92 99 [⟨"active_users", 77, [⟨92, 1⟩, ⟨99, 1⟩]⟩] = .ok 77
    ∧ UniqueMeasure.update_range 69 99 [⟨"active_users", 55, [⟨69, 1⟩, ⟨99, 1⟩]⟩] = .ok 55 := by
  exact ⟨rfl, rfl, rfl, rfl⟩

/-- C1 (amended): the four sub-updates of `UniqueMeasure.update` run strictly
in order (today, yesterday, 7-day, 30-day); the first failure aborts every
later sub-update, while sub-updates already applied are kept and not rolled
back — e.g. a failing today-update leaves all four gauges untouched, and a
failing 30-day update keeps the fresh today, yesterday and 7-day values. -/
theorem uniqueUpdate_sequential (tod : Int) (rs : UniqueResponses) (s : UniqueState) :
    (∀ e, bindFetch rs.rToday (UniqueMeasure.update_day tod) = .error e →
      UniqueMeasure.update tod rs s = (s, some e))
    ∧ (∀ v1 e,
      bindFetch rs.rToday (UniqueMeasure.update_day tod) = .ok v1 →
      bindFetch rs.rYesterday (UniqueMeasure.update_day (tod - 1)) = .error e →
      UniqueMeasure.update tod rs s
        = (⟨v1, s.yesterday, s.last_7d, s.last_30d⟩, some e))
    ∧ (∀ v1 v2 e,
      bindFetch rs.rToday (UniqueMeasure.update_day tod) = .ok v1 →
      bindFetch rs.rYesterday (UniqueMeasure.update_day (tod - 1)) = .ok v2 →
      bindFetch rs.r7d (UniqueMeasure.update_range (tod - 1 - 7) (tod - 1)) = .error e →
      UniqueMeasure.update tod rs s = (⟨v1, v2, s.last_7d, s.last_30d⟩, some e))
    ∧ (∀ v1 v2 v3 e,
      bindFetch rs.rToday (UniqueMeasure.update_day tod) = .ok v1 →
      bindFetch rs.rYesterday (UniqueMeasure.update_day (tod - 1)) = .ok v2 →
      bindFetch rs.r7d (UniqueMeasure.update_range (tod - 1 - 7) (tod - 1)) = .ok v3 →
      bindFetch rs.r30d (UniqueMeasure.update_range (tod - 1 - 30) (tod - 1)) = .error e →
      UniqueMeasure.update tod rs s = (⟨v1, v2, v3, s.last_30d⟩, some e)) := by
  refine ⟨?_, ?_, ?_, ?_⟩
  · intro e he
    unfold UniqueMeasure.update
    rw [he]
  · intro v1 e h1 h2
    unfold UniqueMeasure.update
    rw [h1, h2]
  · intro v1 v2 e h1 h2 h3
    unfold UniqueMeasure.update
    rw [h1, h2, h3]
  · intro v1 v2 v3 e h1 h2 h3 h4
    unfold UniqueMeasure.update
    rw [h1, h2, h3, h4]

/-- Witness for `uniqueUpdate_sequential`, one concrete cycle per failing
position: an invalid today response leaves all four gauges stale; a
mismatched yesterday response keeps the fresh today value only; a 7-day
response with short coverage keeps the fresh today and yesterday values; a
30-day response with short coverage keeps the fresh first three values. -/
theorem uniqueUpdate_sequential_witness :
    UniqueMeasure.update 100
        ⟨.ok [⟨"active_users", 0, []⟩],
         .ok [⟨"active_users", 0, [⟨99, 5⟩]⟩],
         .ok [⟨"active_users", 77, [⟨92, 1⟩, ⟨99, 1⟩]⟩],
         .ok [⟨"active_users", 55, [⟨69, 1⟩, ⟨99, 1⟩]⟩]⟩ ⟨1, 2, 3, 4⟩
      = (⟨1, 2, 3, 4⟩, some (.assertionError "measures returned data for more than 1 day"))
    ∧ UniqueMeasure.update 100
        ⟨.ok [⟨"active_users", 0, [⟨100, 9⟩]⟩],
         .ok [⟨"active_users", 0, [⟨98, 5⟩]⟩],
         .ok [⟨"active_users", 77, [⟨92, 1⟩, ⟨99, 1⟩]⟩],
         .ok [⟨"active_users", 55, [⟨69, 1⟩, ⟨99, 1⟩]⟩]⟩ ⟨1, 2, 3, 4⟩
      = (⟨9, 2, 3, 4⟩, some (.assertionError ""))
    ∧ UniqueMeasure.update 100
        ⟨.ok [⟨"active_users", 0, [⟨100, 9⟩]⟩],
         .ok [⟨"active_users", 0, [⟨99, 5⟩]⟩],
         .ok [⟨"active_users", 77, [⟨93, 1⟩, ⟨99, 1⟩]⟩],
         .ok [⟨"active_users", 55, [⟨69, 1⟩, ⟨99, 1⟩]⟩]⟩ ⟨1, 2, 3, 4⟩
      = (⟨9, 5, 3, 4⟩, some (.assertionError "range exceeded"))
    ∧ UniqueMeasure.update 100
        ⟨.ok [⟨"active_users", 0, [⟨100, 9⟩]⟩],
         .ok [⟨"active_users", 0, [⟨99, 5⟩]⟩],
         .ok [⟨"active_users", 77, [⟨92, 1⟩, ⟨99, 1⟩]⟩],
         .ok [⟨"active_users", 55, [⟨71, 1⟩, ⟨99, 1⟩]⟩]⟩ ⟨1, 2, 3, 4⟩
      = (⟨9, 5, 77, 4⟩, some (.assertionError "range exceeded")) := by
  refine ⟨?_, ?_, ?_, ?_⟩
  · exact (uniqueUpdate_sequential 100
      ⟨.ok [⟨"active_users", 0, []⟩],
       .ok [⟨"active_users", 0, [⟨99, 5⟩]⟩],
       .ok [⟨"active_users", 77, [⟨92, 1⟩, ⟨99, 1⟩]⟩],
       .ok [⟨"active_users", 55, [⟨69, 1⟩, ⟨99, 1⟩]⟩]⟩ ⟨1, 2, 3, 4⟩).1
      (.assertionError "measures returned data for more than 1 day") rfl
  · exact (uniqueUpdate_sequential 100
      ⟨.ok [⟨"active_users", 0, [⟨100, 9⟩]⟩],
       .ok [⟨"active_users", 0, [⟨98, 5⟩]⟩],
       .ok [⟨"active_users", 77, [⟨92, 1⟩, ⟨99, 1⟩]⟩],
       .ok [⟨"active_users", 55, [⟨69, 1⟩, ⟨99, 1⟩]⟩]⟩ ⟨1, 2, 3, 4⟩).2.1
      9 (.assertionError "") rfl rfl
  · exact (uniqueUpdate_sequential 100
      ⟨.ok [⟨"active_users", 0, [⟨100, 9⟩]⟩],
       .ok [⟨"active_users", 0, [⟨99, 5⟩]⟩],
       .ok [⟨"active_users", 77, [⟨93, 1⟩, ⟨99, 1⟩]⟩],
       .ok [⟨"active_users", 55, [⟨69, 1⟩, ⟨99, 1⟩]⟩]⟩ ⟨1, 2, 3, 4⟩).2.2.1
      9 5 (.assertionError "range exceeded") rfl rfl rfl
  · exact (uniqueUpdate_sequential 100
      ⟨.ok [⟨"active_users", 0, [⟨100, 9⟩]⟩],
       .ok [⟨"active_users", 0, [⟨99, 5⟩]⟩],
       .ok [⟨"active_users", 77, [⟨92, 1⟩, ⟨99, 1⟩]⟩],
       .ok [⟨"active_users", 55, [⟨71, 1⟩, ⟨99, 1⟩]⟩]⟩ ⟨1, 2, 3, 4⟩).2.2.2
      9 5 77 (.assertionError "range exceeded") rfl rfl rfl rfl

/-- C5 (counterexample to the claim as stated): a cycle whose `interactions`
series lacks today's point. The `new_users` series in the same response is
valid (second conjunct) and all four `active_users` responses are valid
(third conjunct), yet the cycle leaves every gauge untouched and ends in
`crashed`: the shape error is not recoverable per measure and the poll loop
does not continue. -/
theorem shapeError_crashes_loop :
    pollCycle 100
        ⟨.ok [⟨"interactions", 0, [⟨99, 7⟩]⟩, ⟨"new_users", 0, [⟨100, 1⟩, ⟨99, 2⟩]⟩],
         ⟨.ok [⟨"active_users", 0, [⟨100, 9⟩]⟩],
          .ok [⟨"active_users", 0, [⟨99, 5⟩]⟩],
          .ok [⟨"active_users", 77, [⟨92, 1⟩, ⟨99, 1⟩]⟩],
          .ok [⟨"active_users", 55, [⟨69, 1⟩, ⟨99, 1⟩]⟩]⟩⟩
        ⟨⟨[("interactions", ⟨0, 0⟩), ("new_users", ⟨0, 0⟩),
           ("opened_reports", ⟨0, 0⟩), ("resolved_reports", ⟨0, 0⟩)], ⟨0, 0, 0, 0⟩⟩, 1⟩
      = (⟨⟨[("interactions", ⟨0, 0⟩), ("new_users", ⟨0, 0⟩),
            ("opened_reports", ⟨0, 0⟩), ("resolved_reports", ⟨0, 0⟩)], ⟨0, 0, 0, 0⟩⟩, 1⟩,
         .crashed (.assertionError "no data from today"))
    ∧ CounterMeasure.update_with_data 100 [⟨100, 1⟩, ⟨99, 2⟩] = .ok ⟨1, 2⟩
    ∧ UniqueMeasure.update 100
        ⟨.ok [⟨"active_users", 0, [⟨100, 9⟩]⟩],
         .ok [⟨"active_users", 0, [⟨99, 5⟩]⟩],
         .ok [⟨"active_users", 77, [⟨92, 1⟩, ⟨99, 1⟩]⟩],
         .ok [⟨"active_users", 55, [⟨69, 1⟩, ⟨99, 1⟩]⟩]⟩ ⟨0, 0, 0, 0⟩
      = (⟨9, 5, 77, 55⟩, none) := by
  exact ⟨rfl, rfl, rfl⟩

/-- C5 (amended): a data-shape error (`AssertionError`) or any other
non-Mastodon exception raised inside `update_all` is not caught by the serving
loop: the failing measure's stale value is retained and so is every measure
not yet updated in that cycle, but the remaining updates are skipped and the
exception propagates out of the loop, terminating it with the freshness gauge
left at its previous value. -/
theorem shapeError_aborts_cycle (tod : Int) (rs : CycleResponses) (s : ServeState) (e : Err) :
    (update_all tod rs s.st).2 = some e → isRemoteErr e = false →
    pollCycle tod rs s = (⟨(update_all tod rs s.st).1, s.up⟩, .crashed e) := by
  intro h hrem
  unfold pollCycle
  rcases hu : update_all tod rs s.st with ⟨st1, oe⟩
  have hoe : oe = some e := by rw [hu] at h; exact h
  subst hoe
  simp [hrem]

/-- Witness for `shapeError_aborts_cycle` at the crashing cycle above. -/
theorem shapeError_aborts_cycle_witness :
    pollCycle 100
        ⟨.ok [⟨"interactions", 0, [⟨99, 7⟩]⟩],
         ⟨.ok [], .ok [], .ok [], .ok []⟩⟩
        ⟨⟨[("interactions", ⟨3, 4⟩), ("new_users", ⟨0, 0⟩),
           ("opened_reports", ⟨0, 0⟩), ("resolved_reports", ⟨0, 0⟩)], ⟨0, 0, 0, 0⟩⟩, 1⟩
      = (⟨⟨[("interactions", ⟨3, 4⟩), ("new_users", ⟨0, 0⟩),
            ("opened_reports", ⟨0, 0⟩), ("resolved_reports", ⟨0, 0⟩)], ⟨0, 0, 0, 0⟩⟩, 1⟩,
         .crashed (.assertionError "no data from today")) :=
  shapeError_aborts_cycle 100
    ⟨.ok [⟨"interactions", 0, [⟨99, 7⟩]⟩], ⟨.ok [], .ok [], .ok [], .ok []⟩⟩
    ⟨⟨[("interactions", ⟨3, 4⟩), ("new_users", ⟨0, 0⟩),
       ("opened_reports", ⟨0, 0⟩), ("resolved_reports", ⟨0, 0⟩)], ⟨0, 0, 0, 0⟩⟩, 1⟩
    (.assertionError "no data from today") rfl rfl

/-- C7 (counterexample to the claim as stated): the counters query succeeds
and rewrites the `interactions` gauges, then the unique measure's first query
raises a network error. The freshness gauge correctly drops to 0, but the
previously published `interactions` values (0, 0) are NOT retained: they have
already been replaced by (1, 2) inside the same failed cycle. -/
theorem freshnessGate_partial_update :
    pollCycle 100
        ⟨.ok [⟨"interactions", 0, [⟨100, 1⟩, ⟨99, 2⟩]⟩],
         ⟨.error .mastodonNetworkError, .ok [], .ok [], .ok []⟩⟩
        ⟨⟨[("interactions", ⟨0, 0⟩), ("new_users", ⟨0, 0⟩),
           ("opened_reports", ⟨0, 0⟩), ("resolved_reports", ⟨0, 0⟩)], ⟨0, 0, 0, 0⟩⟩, 1⟩
      = (⟨⟨[("interactions", ⟨1, 2⟩), ("new_users", ⟨0, 0⟩),
            ("opened_reports", ⟨0, 0⟩), ("resolved_reports", ⟨0, 0⟩)], ⟨0, 0, 0, 0⟩⟩, 0⟩,
         .continues)
    ∧ (⟨1, 2⟩ : CounterState) ≠ ⟨0, 0⟩ := by
  exact ⟨rfl, by decide⟩

/-- C7 (amended): after a serving-loop cycle the freshness gauge is 1 when
`update_all` completed without an exception and 0 when a Mastodon
transport/server error was raised; in the error case no gauge is zeroed or
rolled back — the published state is exactly the partial state `update_all`
reached, so gauges not yet updated keep their previous values, and when the
very first remote query fails the whole state is unchanged. -/
theorem freshness_gate (tod : Int) (rs : CycleResponses) (s : ServeState) :
    ((update_all tod rs s.st).2 = none →
      pollCycle tod rs s = (⟨(update_all tod rs s.st).1, 1⟩, .continues))
    ∧ (∀ e, (update_all tod rs s.st).2 = some e → isRemoteErr e = true →
      pollCycle tod rs s = (⟨(update_all tod rs s.st).1, 0⟩, .continues))
    ∧ (∀ e, rs.rCounters = .error e → isRemoteErr e = true →
      pollCycle tod rs s = (⟨s.st, 0⟩, .continues)) := by
  refine ⟨?_, ?_, ?_⟩
  · intro h
    unfold pollCycle
    rcases hu : update_all tod rs s.st with ⟨st1, oe⟩
    have hoe : oe = none := by rw [hu] at h; exact h
    subst hoe
    rfl
  · intro e h hrem
    unfold pollCycle
    rcases hu : update_all tod rs s.st with ⟨st1, oe⟩
    have hoe : oe = some e := by rw [hu] at h; exact h
    subst hoe
    simp [hrem]
  · intro e hc hrem
    unfold pollCycle update_all update_counters
    rw [hc]
    simp [hrem]

/-- Witness for `freshness_gate`: a fully successful cycle sets the gauge to
1, a cycle whose unique-measure query hits a server error sets it to 0 keeping
partial progress, and a network error on the very first query sets it to 0
with the state bit-for-bit unchanged. -/
theorem freshness_gate_witness :
    pollCycle 100
        ⟨.ok [], ⟨.ok [⟨"active_users", 0, [⟨100, 9⟩]⟩],
                  .ok [⟨"active_users", 0, [⟨99, 5⟩]⟩],
                  .ok [⟨"active_users", 77, [⟨92, 1⟩, ⟨99, 1⟩]⟩],
                  .ok [⟨"active_users", 55, [⟨69, 1⟩, ⟨99, 1⟩]⟩]⟩⟩
        ⟨⟨[("interactions", ⟨0, 0⟩)], ⟨0, 0, 0, 0⟩⟩, 0⟩
      = (⟨⟨[("interactions", ⟨0, 0⟩)], ⟨9, 5, 77, 55⟩⟩, 1⟩, .continues)
    ∧ pollCycle 100
        ⟨.ok [], ⟨.error .mastodonServerError, .ok [], .ok [], .ok []⟩⟩
        ⟨⟨[("interactions", ⟨0, 0⟩)], ⟨1, 2, 3, 4⟩⟩, 1⟩
      = (⟨⟨[("interactions", ⟨0, 0⟩)], ⟨1, 2, 3, 4⟩⟩, 0⟩, .continues)
    ∧ pollCycle 100
        ⟨.error .mastodonNetworkError, ⟨.ok [], .ok [], .ok [], .ok []⟩⟩
        ⟨⟨[("interactions", ⟨6, 7⟩)], ⟨1, 2, 3, 4⟩⟩, 1⟩
      = (⟨⟨[("interactions", ⟨6, 7⟩)], ⟨1, 2, 3, 4⟩⟩, 0⟩, .continues) := by
  refine ⟨?_, ?_, ?_⟩
  · exact (freshness_gate 100
      ⟨.ok [], ⟨.ok [⟨"active_users", 0, [⟨100, 9⟩]⟩],
                .ok [⟨"active_users", 0, [⟨99, 5⟩]⟩],
                .ok [⟨"active_users", 77, [⟨92, 1⟩, ⟨99, 1⟩]⟩],
                .ok [⟨"active_users", 55, [⟨69, 1⟩, ⟨99, 1⟩]⟩]⟩⟩
      ⟨⟨[("interactions", ⟨0, 0⟩)], ⟨0, 0, 0, 0⟩⟩, 0⟩).1 rfl
  · exact (freshness_gate 100
      ⟨.ok [], ⟨.error .mastodonServerError, .ok [], .ok [], .ok []⟩⟩
      ⟨⟨[("interactions", ⟨0, 0⟩)], ⟨1, 2, 3, 4⟩⟩, 1⟩).2.1 .mastodonServerError rfl rfl
  · exact (freshness_gate 100
      ⟨.error .mastodonNetworkError, ⟨.ok [], .ok [], .ok [], .ok []⟩⟩
      ⟨⟨[("interactions", ⟨6, 7⟩)], ⟨1, 2, 3, 4⟩⟩, 1⟩).2.2 .mastodonNetworkError rfl rfl

/-- C9 (counterexample to the claim as stated): with every key the claim names
present in the environment, the credential read still fails with `KeyError`
(the program reads `MASTODON_`-prefixed names), and the update interval
ignores `UPDATE_INTERVAL = 5` and falls back to its default of 30 (the
program reads `UPDATE_SECS`). -/
theorem envKeys_mismatch :
    get_mastodon_config
        [("BASE_URL", "u"), ("CLIENT_KEY", "k"), ("CLIENT_SECRET", "s"),
         ("ACCESS_TOKEN", "t"), ("PORT", "9999"), ("UPDATE_INTERVAL", "5")]
      = .error .keyError
    ∧ config_UPDATE_SECS
        [("BASE_URL", "u"), ("CLIENT_KEY", "k"), ("CLIENT_SECRET", "s"),
         ("ACCESS_TOKEN", "t"), ("PORT", "9999"), ("UPDATE_INTERVAL", "5")]
      = .inr 30
    ∧ "UPDATE_INTERVAL" ∉ recognizedEnvKeys
    ∧ "BASE_URL" ∉ recognizedEnvKeys := by
  exact ⟨rfl, rfl, by decide, by decide⟩

/-- C9 (amended): the recognized configuration keys are `MASTODON_BASE_URL`,
`MASTODON_CLIENT_KEY`, `MASTODON_CLIENT_SECRET` and `MASTODON_ACCESS_TOKEN`
(mandatory — a missing one raises `KeyError`), plus `PORT` defaulting to 9876
and `UPDATE_SECS` defaulting to 30 seconds when absent. -/
theorem env_config_correct (env : List (String × String)) (b ck cs at_ : String) :
    (lookupEnv env "MASTODON_BASE_URL" = some b →
     lookupEnv env "MASTODON_CLIENT_KEY" = some ck →
     lookupEnv env "MASTODON_CLIENT_SECRET" = some cs →
     lookupEnv env "MASTODON_ACCESS_TOKEN" = some at_ →
     get_mastodon_config env = .ok ⟨b, ck, cs, at_⟩)
    ∧ (lookupEnv env "MASTODON_BASE_URL" = none →
       get_mastodon_config env = .error .keyError)
    ∧ (lookupEnv env "MASTODON_BASE_URL" = some b →
       lookupEnv env "MASTODON_CLIENT_KEY" = none →
       get_mastodon_config env = .error .keyError)
    ∧ (lookupEnv env "MASTODON_BASE_URL" = some b →
       lookupEnv env "MASTODON_CLIENT_KEY" = some ck →
       lookupEnv env "MASTODON_CLIENT_SECRET" = none →
       get_mastodon_config env = .error .keyError)
    ∧ (lookupEnv env "MASTODON_BASE_URL" = some b →
       lookupEnv env "MASTODON_CLIENT_KEY" = some ck →
       lookupEnv env "MASTODON_CLIENT_SECRET" = some cs →
       lookupEnv env "MASTODON_ACCESS_TOKEN" = none →
       get_mastodon_config env = .error .keyError)
    ∧ (lookupEnv env "PORT" = none → config_PORT env = .inr 9876)
    ∧ (lookupEnv env "UPDATE_SECS" = none → config_UPDATE_SECS env = .inr 30)
    ∧ "MASTODON_BASE_URL" ∈ recognizedEnvKeys ∧ "UPDATE_SECS" ∈ recognizedEnvKeys
    ∧ "BASE_URL" ∉ recognizedEnvKeys ∧ "UPDATE_INTERVAL" ∉ recognizedEnvKeys := by
  refine ⟨?_, ?_, ?_, ?_, ?_, ?_, ?_, by decide, by decide, by decide, by decide⟩
  · intro h1 h2 h3 h4
    unfold get_mastodon_config
    rw [h1, h2, h3, h4]
  · intro h1
    unfold get_mastodon_config
    rw [h1]
  · intro h1 h2
    unfold get_mastodon_config
    rw [h1, h2]
  · intro h1 h2 h3
    unfold get_mastodon_config
    rw [h1, h2, h3]
  · intro h1 h2 h3 h4
    unfold get_mastodon_config
    rw [h1, h2, h3, h4]
  · intro h
    unfold config_PORT
    rw [h]
  · intro h
    unfold config_UPDATE_SECS
    rw [h]

/-- Witness for `env_config_correct`: an environment holding only the four
`MASTODON_`-prefixed keys yields the credentials and both defaults, and each
prefix of those keys — empty, base URL only, up to client secret — fails the
credential read on the first key it is missing. -/
theorem env_config_correct_witness :
    get_mastodon_config
        [("MASTODON_BASE_URL", "u"), ("MASTODON_CLIENT_KEY", "k"),
         ("MASTODON_CLIENT_SECRET", "s"), ("MASTODON_ACCESS_TOKEN", "t")]
      = .ok ⟨"u", "k", "s", "t"⟩
    ∧ config_PORT
        [("MASTODON_BASE_URL", "u"), ("MASTODON_CLIENT_KEY", "k"),
         ("MASTODON_CLIENT_SECRET", "s"), ("MASTODON_ACCESS_TOKEN", "t")]
      = .inr 9876
    ∧ config_UPDATE_SECS
        [("MASTODON_BASE_URL", "u"), ("MASTODON_CLIENT_KEY", "k"),
         ("MASTODON_CLIENT_SECRET", "s"), ("MASTODON_ACCESS_TOKEN", "t")]
      = .inr 30
    ∧ get_mastodon_config [] = .error .keyError
    ∧ get_mastodon_config [("MASTODON_BASE_URL", "u")] = .error .keyError
    ∧ get_mastodon_config
        [("MASTODON_BASE_URL", "u"), ("MASTODON_CLIENT_KEY", "k")]
      = .error .keyError
    ∧ get_mastodon_config
        [("MASTODON_BASE_URL", "u"), ("MASTODON_CLIENT_KEY", "k"),
         ("MASTODON_CLIENT_SECRET", "s")]
      = .error .keyError := by
  refine ⟨?_, ?_, ?_, ?_, ?_, ?_, ?_⟩
  · exact (env_config_correct
      [("MASTODON_BASE_URL", "u"), ("MASTODON_CLIENT_KEY", "k"),
       ("MASTODON_CLIENT_SECRET", "s"), ("MASTODON_ACCESS_TOKEN", "t")]
      "u" "k" "s" "t").1 rfl rfl rfl rfl
  · exact (env_config_correct
      [("MASTODON_BASE_URL", "u"), ("MASTODON_CLIENT_KEY", "k"),
       ("MASTODON_CLIENT_SECRET", "s"), ("MASTODON_ACCESS_TOKEN", "t")]
      "u" "k" "s" "t").2.2.2.2.2.1 rfl
  · exact (env_config_correct
      [("MASTODON_BASE_URL", "u"), ("MASTODON_CLIENT_KEY", "k"),
       ("MASTODON_CLIENT_SECRET", "s"), ("MASTODON_ACCESS_TOKEN", "t")]
      "u" "k" "s" "t").2.2.2.2.2.2.1 rfl
  · exact (env_config_correct [] "" "" "" "").2.1 rfl
  · exact (env_config_correct [("MASTODON_BASE_URL", "u")] "u" "" "" "").2.2.1 rfl rfl
  · exact (env_config_correct
      [("MASTODON_BASE_URL", "u"), ("MASTODON_CLIENT_KEY", "k")]
      "u" "k" "" "").2.2.2.1 rfl rfl rfl
  · exact (env_config_correct
      [("MASTODON_BASE_URL", "u"), ("MASTODON_CLIENT_KEY", "k"),
       ("MASTODON_CLIENT_SECRET", "s")]
      "u" "k" "s" "").2.2.2.2.1 rfl rfl rfl rfl

end MastoAdminMetrics
